import Mathlib

/-!
Verification of the CRM dashboard (`src/app.py`).

The app is a single-file Streamlit CRM: a sidebar intake form appends client
records to a session table persisted as a CSV file, and a dashboard renders
filters, KPI metrics, charts and an Excel export over that table.

Shallow embedding conventions:
* A pandas `DataFrame` of client rows is a `List ClientRecord` (row order =
  insertion order, matching `ignore_index=True` appends).
* Python `float` prices are modelled as `ℚ` (the spec types price as decimal).
* The persisted CSV (`crm_data.csv`) is `Option RecordTable`: `none` models
  `FileNotFoundError`, `some rows` the stored rows.  Reading back applies the
  `pd.to_datetime(...).dt.date` pipeline of `init_data` to the date column,
  modelled by `toDatetime` / `Datetime.toDate`.
* Streamlit widget results (multiselect, sliders) are parameters of `render`.
-/

namespace CRM

/-- A calendar date, the value held by the `Fecha de Servicio` column
(`st.date_input` produces a `datetime.date`). -/
structure Date where
  year : Nat
  month : Nat
  day : Nat
deriving DecidableEq, Repr

/-- A timestamp as produced by `pd.to_datetime` on a stored date. -/
structure Datetime where
  date : Date
  hour : Nat
  minute : Nat
  second : Nat
deriving DecidableEq, Repr

/-- `pd.to_datetime` on a stored date string: midnight of that date. -/
def toDatetime (d : Date) : Datetime := ⟨d, 0, 0, 0⟩

/-- The `.dt.date` accessor: the date component of a timestamp. -/
def Datetime.toDate (dt : Datetime) : Date := dt.date

/-- `Clasificación de Cliente` selectbox: `("Nuevo", "Antiguo")`. -/
inductive TipoCliente where
  | nuevo
  | antiguo
deriving DecidableEq, Repr

/-- `¿Conductor o Sin Conductor?` selectbox: `("Con Conductor", "Sin Conductor")`. -/
inductive Conductor where
  | conConductor
  | sinConductor
deriving DecidableEq, Repr

/-- One row of the client table, fields in the column order of `new_entry`
(lines 105–118 of `src/app.py`). -/
structure ClientRecord where
  fechaServicio : Date
  empresa : String
  ruc : String
  tiempoDias : Nat
  conductor : Conductor
  precio : ℚ
  contacto : String
  email : String
  telefono : String
  score : Nat
  trabajadores : Nat
  tipoCliente : TipoCliente
deriving DecidableEq, Repr

/-- The session's client table (`st.session_state['clientes_df']`). -/
abbrev RecordTable := List ClientRecord

/-- Whole-app state: the in-memory session table plus the persisted CSV file
(`none` = the file does not exist). -/
structure AppState where
  clientesDf : RecordTable
  crmDataCsv : Option RecordTable
deriving DecidableEq, Repr

/-- Reading one stored row back: `init_data` runs
`pd.to_datetime(df['Fecha de Servicio']).dt.date`, so the date column goes
through the timestamp round trip; every other column is read back as stored. -/
def loadRow (r : ClientRecord) : ClientRecord :=
  { r with fechaServicio := (toDatetime r.fechaServicio).toDate }

/-- `init_data` (lines 14–36): load `crm_data.csv` and re-coerce the date
column; on `FileNotFoundError` start from the empty table with the fixed
column schema. -/
def init_data (file : Option RecordTable) : RecordTable :=
  match file with
  | some rows => rows.map loadRow
  | none => []

/-- `save_data` (lines 42–43): rewrite the whole CSV from the session table. -/
def save_data (s : AppState) : AppState :=
  { s with crmDataCsv := some s.clientesDf }

/-- Outcome rendered next to the submit button. -/
inductive SubmitOutcome where
  | validationError (msg : String)
  | success (msg : String)
deriving DecidableEq, Repr

/-- The submit handler (lines 99–126): `if not empresa or not ruc or not
contacto` report the error and stop; otherwise build `new_entry`, append it
with `pd.concat([...], ignore_index=True)` (a value-returning concatenation
that replaces the session table) and `save_data()`. -/
def submitForm (s : AppState) (entry : ClientRecord) : SubmitOutcome × AppState :=
  if entry.empresa = "" ∨ entry.ruc = "" ∨ entry.contacto = "" then
    (.validationError ("Por favor, complete los campos de Empresa, RUC y Contacto."), s)
  else
    (.success ("✅ Cliente registrado y datos guardados."),
      save_data { s with clientesDf := s.clientesDf ++ [entry] })

/-- Filter criteria: multiselect over client type, minimum-score slider and
price-range slider (lines 144–171). -/
structure Criteria where
  clientTypes : List TipoCliente
  minScore : Nat
  low : ℚ
  high : ℚ
deriving DecidableEq, Repr

/-- The row predicate of `df_filtrado` (lines 175–180): client type selected,
score at least the minimum, price within the selected range, inclusive. -/
def matchesCriteria (c : Criteria) (r : ClientRecord) : Bool :=
  decide (r.tipoCliente ∈ c.clientTypes) && decide (c.minScore ≤ r.score) &&
    decide (c.low ≤ r.precio) && decide (r.precio ≤ c.high)

/-- `df_filtrado`: boolean-mask row selection keeps exactly the rows whose
predicate holds, in order. -/
def filterTable (t : RecordTable) (c : Criteria) : RecordTable :=
  t.filter (matchesCriteria c)

/-- A KPI cell: either a numeric value (formatted for display) or the literal
sentinel string shown when the filtered view is empty. -/
inductive Metric where
  | value (q : ℚ)
  | sentinel (display : String)
deriving DecidableEq, Repr

/-- `Series.mean`: sum divided by count. -/
def seriesMean (xs : List ℚ) : ℚ := xs.sum / xs.length

/-- `Precio Promedio Filtrado` (line 190): the mean when
`not df_filtrado.empty`, the string `$0.00` otherwise. -/
def precioPromedio (v : RecordTable) : Metric :=
  if v.isEmpty then .sentinel ("$0.00")
  else .value (seriesMean (v.map (·.precio)))

/-- `Score Promedio Filtrado` (line 191): the mean when
`not df_filtrado.empty`, the string `N/A` otherwise. -/
def scorePromedio (v : RecordTable) : Metric :=
  if v.isEmpty then .sentinel ("N/A")
  else .value (seriesMean (v.map (fun r => (r.score : ℚ))))

/-- `Series.value_counts` on a column: one `(value, count)` pair per distinct
value occurring in the column. -/
def value_counts (col : List TipoCliente) : List (TipoCliente × Nat) :=
  col.dedup.map (fun t => (t, col.count t))

/-- `count_type` (line 213): value counts of the `Tipo de Cliente` column of
the filtered view. -/
def count_type (v : RecordTable) : List (TipoCliente × Nat) :=
  value_counts (v.map (·.tipoCliente))

/-- `df['Precio'].min()` over the nonempty table `r :: rs`. -/
def precioMinActual (r : ClientRecord) (rs : List ClientRecord) : ℚ :=
  rs.foldl (fun a x => min a x.precio) r.precio

/-- `df['Precio'].max()` over the nonempty table `r :: rs`. -/
def precioMaxActual (r : ClientRecord) (rs : List ClientRecord) : ℚ :=
  rs.foldl (fun a x => max a x.precio) r.precio

/-- The price-slider correction (lines 149–163): when the observed min and max
coincide, synthesize `max + 10` (price 0) or `max * 1.05 + 10` as the upper
bound; otherwise use the real span.  Returns
`(slider_min, slider_max, slider_default)`. -/
def sliderRange (r : ClientRecord) (rs : List ClientRecord) : ℚ × ℚ × (ℚ × ℚ) :=
  let pmin := precioMinActual r rs
  let pmax := precioMaxActual r rs
  if pmin = pmax then
    let smax := if pmax = 0 then pmax + 10 else pmax * 1.05 + 10
    (pmin, smax, (pmin, smax))
  else
    (pmin, pmax, (pmin, pmax))

/-- Lexicographic `a ≤ b` on dates, the order `sort_values` uses. -/
def Date.ble (a b : Date) : Bool :=
  decide (a.year < b.year) ||
    (decide (a.year = b.year) &&
      (decide (a.month < b.month) ||
        (decide (a.month = b.month) && decide (a.day ≤ b.day))))

/-- `df_filtrado.sort_values(by='Fecha de Servicio', ascending=False)`
(line 224): stable sort, latest service date first. -/
def sortByFechaDesc (v : RecordTable) : RecordTable :=
  v.mergeSort (fun a b => Date.ble b.fechaServicio a.fechaServicio)

/-- An `xlsxwriter` cell format (`workbook.add_format`). -/
structure CellFormat where
  bgColor : String
  bold : Bool
  align : String
deriving DecidableEq, Repr

/-- The header highlight: `{'bg_color': '#FFC300', 'bold': True,
'align': 'center'}` (line 58). -/
def yellowFormat : CellFormat := ⟨"#FFC300", true, "center"⟩

/-- The 12 column headers, in schema order. -/
def columnas : List String :=
  ["Fecha de Servicio", "Empresa", "RUC", "Tiempo de Servicio (días)",
    "¿Conductor?", "Precio", "Contacto", "Email", "Teléfono",
    "Score (0-1000)", "Trabajadores", "Tipo de Cliente"]

/-- The produced spreadsheet: one sheet, styled header row, the data rows, and
the fixed column width applied to `A:L`. -/
structure ExcelSheet where
  sheetName : String
  headerCells : List (String × CellFormat)
  dataRows : RecordTable
  columnWidth : Nat
deriving DecidableEq, Repr

/-- `to_excel` (lines 49–70): write the frame to one sheet named `Clientes`,
overwrite the header row with the yellow format, set every column width to 20,
and return the binary blob (modelled structurally). -/
def to_excel (df : RecordTable) : ExcelSheet :=
  ⟨"Clientes", columnas.map (fun c => (c, yellowFormat)), df, 20⟩

/-- What the dashboard body (lines 135–244) renders. -/
inductive RenderOutput where
  | emptyInfo (msg : String)
  | dashboard (sliderMin sliderMax : ℚ) (sliderDefault : ℚ × ℚ)
      (dfFiltrado : RecordTable) (precioM scoreM : Metric)
      (countType : List (TipoCliente × Nat)) (dfOrdenado : RecordTable)
      (excelData : ExcelSheet)
deriving DecidableEq, Repr

/-- The render pipeline (lines 133–244): copy the session table; if it is
empty show only the info message; otherwise compute the slider bounds, the
filtered view, the KPI metrics, the type counts, the date-sorted table and the
Excel blob.  The widget selections (`tipo_seleccionado`, `min_score`,
`(min_price, max_price)`) are user inputs, hence parameters.  The pipeline
never assigns `st.session_state`, so the state component is returned as is. -/
def render (s : AppState) (tipoSeleccionado : List TipoCliente) (minScore : Nat)
    (priceSel : ℚ × ℚ) : RenderOutput × AppState :=
  match s.clientesDf with
  | [] =>
    (.emptyInfo ("Aún no hay datos de clientes. Use el formulario de la barra lateral para comenzar."), s)
  | r :: rs =>
    let sr := sliderRange r rs
    let dfFiltrado :=
      filterTable (r :: rs) ⟨tipoSeleccionado, minScore, priceSel.1, priceSel.2⟩
    let dfOrdenado := sortByFechaDesc dfFiltrado
    (.dashboard sr.1 sr.2.1 sr.2.2 dfFiltrado (precioPromedio dfFiltrado)
      (scorePromedio dfFiltrado) (count_type dfFiltrado) dfOrdenado
      (to_excel dfOrdenado), s)

/-- A concrete record used by the witnesses. -/
def sampleRecord : ClientRecord :=
  ⟨⟨2024, 1, 15⟩, "Acme", "20123456789", 3, .conConductor, 100, "Ana",
    "ana@acme.pe", "999888777", 500, 2, .nuevo⟩

/-- A candidate with the required `Empresa` field empty. -/
def emptyEmpresaEntry : ClientRecord := { sampleRecord with empresa := "" }

/-- C1: a candidate with empty company, tax id or contact name makes the
submit handler report the validation error, append nothing (the session table
is unchanged in length and contents) and leave the persisted file untouched. -/
theorem submit_validation_no_append (s : AppState) (entry : ClientRecord)
    (h : entry.empresa = "" ∨ entry.ruc = "" ∨ entry.contacto = "") :
    (submitForm s entry).1 =
      .validationError ("Por favor, complete los campos de Empresa, RUC y Contacto.") ∧
    (submitForm s entry).2.clientesDf = s.clientesDf ∧
    (submitForm s entry).2.crmDataCsv = s.crmDataCsv := by
  unfold submitForm
  rw [if_pos h]
  exact ⟨rfl, rfl, rfl⟩

theorem submit_validation_no_append_witness :
    (submitForm ⟨[sampleRecord], some [sampleRecord]⟩ emptyEmpresaEntry).1 =
      .validationError ("Por favor, complete los campos de Empresa, RUC y Contacto.") ∧
    (submitForm ⟨[sampleRecord], some [sampleRecord]⟩ emptyEmpresaEntry).2.clientesDf =
      [sampleRecord] ∧
    (submitForm ⟨[sampleRecord], some [sampleRecord]⟩ emptyEmpresaEntry).2.crmDataCsv =
      some [sampleRecord] :=
  submit_validation_no_append ⟨[sampleRecord], some [sampleRecord]⟩ emptyEmpresaEntry
    (Or.inl rfl)

/-- C2: a record is in the filtered view iff it is a row of the table whose
client type is selected, whose score meets the minimum, and whose price lies
in the selected range inclusive. -/
theorem filterTable_mem_iff (t : RecordTable) (c : Criteria) (r : ClientRecord) :
    r ∈ filterTable t c ↔
      r ∈ t ∧ r.tipoCliente ∈ c.clientTypes ∧ c.minScore ≤ r.score ∧
        c.low ≤ r.precio ∧ r.precio ≤ c.high := by
  simp [filterTable, matchesCriteria, List.mem_filter, and_assoc]

/-- C3: with all three required fields nonempty the submit handler signals
success, replaces the session table by the old table with the candidate
appended at the end (a value-returning append: the new table is the old value
plus one row), and persists that full new table. -/
theorem submit_success_appends (s : AppState) (entry : ClientRecord)
    (h1 : entry.empresa ≠ "") (h2 : entry.ruc ≠ "") (h3 : entry.contacto ≠ "") :
    (submitForm s entry).1 = .success ("✅ Cliente registrado y datos guardados.") ∧
    (submitForm s entry).2.clientesDf = s.clientesDf ++ [entry] ∧
    (submitForm s entry).2.crmDataCsv = some (s.clientesDf ++ [entry]) := by
  have hcond : ¬(entry.empresa = "" ∨ entry.ruc = "" ∨ entry.contacto = "") := by
    push_neg
    exact ⟨h1, h2, h3⟩
  unfold submitForm
  rw [if_neg hcond]
  exact ⟨rfl, rfl, rfl⟩

theorem submit_success_appends_witness :
    (submitForm ⟨[], none⟩ sampleRecord).1 =
      .success ("✅ Cliente registrado y datos guardados.") ∧
    (submitForm ⟨[], none⟩ sampleRecord).2.clientesDf = [] ++ [sampleRecord] ∧
    (submitForm ⟨[], none⟩ sampleRecord).2.crmDataCsv = some ([] ++ [sampleRecord]) :=
  submit_success_appends ⟨[], none⟩ sampleRecord (by decide) (by decide) (by decide)

/-- Reading a stored row back is the identity: the date column survives the
`pd.to_datetime(...).dt.date` round trip as a date value, every other column
is stored as is. -/
theorem loadRow_id (r : ClientRecord) : loadRow r = r := rfl

/-- C4: after a successful submission, reloading the persisted file via
`init_data` yields a table whose last row is the candidate, field for field,
the service date still a date value. -/
theorem append_persist_reload (s : AppState) (entry : ClientRecord)
    (h1 : entry.empresa ≠ "") (h2 : entry.ruc ≠ "") (h3 : entry.contacto ≠ "") :
    (init_data (submitForm s entry).2.crmDataCsv).getLast? = some entry := by
  have hcond : ¬(entry.empresa = "" ∨ entry.ruc = "" ∨ entry.contacto = "") := by
    push_neg
    exact ⟨h1, h2, h3⟩
  unfold submitForm
  rw [if_neg hcond]
  show ((s.clientesDf ++ [entry]).map loadRow).getLast? = some entry
  rw [List.map_append]
  simp [List.getLast?_concat, loadRow_id]

theorem append_persist_reload_witness :
    (init_data (submitForm ⟨[], none⟩ sampleRecord).2.crmDataCsv).getLast? =
      some sampleRecord :=
  append_persist_reload ⟨[], none⟩ sampleRecord (by decide) (by decide) (by decide)

/-- C5: on an empty view both KPI averages are the defined sentinel strings
(total functions, no failure); on a nonempty view they are the arithmetic
means of price and score. -/
theorem metrics_empty_sentinel (v : RecordTable) :
    (v = [] →
      precioPromedio v = .sentinel ("$0.00") ∧ scorePromedio v = .sentinel ("N/A")) ∧
    (v ≠ [] →
      precioPromedio v = .value ((v.map (·.precio)).sum / (v.length : ℚ)) ∧
      scorePromedio v =
        .value ((v.map (fun r => (r.score : ℚ))).sum / (v.length : ℚ))) := by
  constructor
  · rintro rfl
    exact ⟨rfl, rfl⟩
  · intro h
    have hne : v.isEmpty = false := by simpa [List.isEmpty_iff] using h
    constructor <;> simp [precioPromedio, scorePromedio, seriesMean, hne]

theorem metrics_empty_sentinel_witness :
    (precioPromedio [] = .sentinel ("$0.00") ∧ scorePromedio [] = .sentinel ("N/A")) ∧
    precioPromedio [sampleRecord] =
      .value ((([sampleRecord] : RecordTable).map (·.precio)).sum /
        (([sampleRecord] : RecordTable).length : ℚ)) :=
  ⟨(metrics_empty_sentinel []).1 rfl,
    ((metrics_empty_sentinel [sampleRecord]).2 (by simp)).1⟩

/-- `df['Precio'].min()` of a table whose prices are all `p` is `p`. -/
theorem foldl_min_const (p : ℚ) :
    ∀ (rs : List ClientRecord), (∀ x ∈ rs, x.precio = p) →
      rs.foldl (fun a x => min a x.precio) p = p
  | [], _ => rfl
  | y :: ys, h => by
    have hy : y.precio = p := h y (by simp)
    simp only [List.foldl_cons, hy, min_self]
    exact foldl_min_const p ys (fun x hx => h x (by simp [hx]))

/-- `df['Precio'].max()` of a table whose prices are all `p` is `p`. -/
theorem foldl_max_const (p : ℚ) :
    ∀ (rs : List ClientRecord), (∀ x ∈ rs, x.precio = p) →
      rs.foldl (fun a x => max a x.precio) p = p
  | [], _ => rfl
  | y :: ys, h => by
    have hy : y.precio = p := h y (by simp)
    simp only [List.foldl_cons, hy, max_self]
    exact foldl_max_const p ys (fun x hx => h x (by simp [hx]))

/-- C6: on a nonempty table whose prices all equal `p` (prices are nonnegative
by the form's input control), the corrected slider upper bound is strictly
above `p`, and at `p = 50` it is at least `60` (it is `62.5`). -/
theorem slider_nondegenerate (r : ClientRecord) (rs : List ClientRecord) (p : ℚ)
    (hp : 0 ≤ p) (hr : r.precio = p) (hrs : ∀ x ∈ rs, x.precio = p) :
    p < (sliderRange r rs).2.1 ∧ (p = 50 → 60 ≤ (sliderRange r rs).2.1) := by
  have hmin : precioMinActual r rs = p := by
    unfold precioMinActual
    rw [hr]
    exact foldl_min_const p rs hrs
  have hmax : precioMaxActual r rs = p := by
    unfold precioMaxActual
    rw [hr]
    exact foldl_max_const p rs hrs
  have hsr : sliderRange r rs =
      (p, if p = 0 then p + 10 else p * 1.05 + 10,
        (p, if p = 0 then p + 10 else p * 1.05 + 10)) := by
    simp only [sliderRange]
    rw [hmin, hmax, if_pos rfl]
  rw [hsr]
  show p < (if p = 0 then p + 10 else p * 1.05 + 10) ∧
    (p = 50 → 60 ≤ (if p = 0 then p + 10 else p * 1.05 + 10))
  by_cases h0 : p = 0
  · subst h0
    norm_num
  · rw [if_neg h0]
    constructor
    · linarith
    · rintro rfl
      norm_num

/-- A single-record table priced at 50. -/
def record50 : ClientRecord := { sampleRecord with precio := 50 }

theorem slider_nondegenerate_witness :
    (50 : ℚ) < (sliderRange record50 []).2.1 ∧
    ((50 : ℚ) = 50 → 60 ≤ (sliderRange record50 []).2.1) :=
  slider_nondegenerate record50 [] 50 (by norm_num) rfl (by simp)

/-- C7: filtering an already-filtered view with the same criteria returns the
identical view. -/
theorem filterTable_idempotent (t : RecordTable) (c : Criteria) :
    filterTable (filterTable t c) c = filterTable t c := by
  simp [filterTable, List.filter_filter]

/-- C8: the per-client-type counts of a view sum to the view's total count. -/
theorem count_type_sum (v : RecordTable) :
    ((count_type v).map Prod.snd).sum = v.length := by
  unfold count_type value_counts
  rw [List.map_map]
  have hcomp :
      (Prod.snd ∘ fun t => (t, (v.map (·.tipoCliente)).count t)) =
        fun t => (v.map (·.tipoCliente)).count t := rfl
  rw [hcomp, List.sum_map_count_dedup_eq_length, List.length_map]

/-- C9: the export embeds the (date-sorted) view's rows unchanged, and the
whole render pipeline returns the session state exactly as it received it —
no step writes back to `st.session_state`. -/
theorem export_no_mutation (v : RecordTable) (s : AppState)
    (sel : List TipoCliente) (ms : Nat) (pr : ℚ × ℚ) :
    (to_excel (sortByFechaDesc v)).dataRows = sortByFechaDesc v ∧
    (render s sel ms pr).2 = s := by
  refine ⟨rfl, ?_⟩
  rcases s with ⟨df, csv⟩
  cases df <;> rfl

/-- C10: on an empty session table the render pipeline produces only the info
message; on a nonempty table it produces the dashboard, whose price bounds
(`sliderRange`, wrapping `min`/`max` of the price column) are computed from
the head and tail of a nonempty list only. -/
theorem empty_table_guard (s : AppState) (sel : List TipoCliente) (ms : Nat)
    (pr : ℚ × ℚ) :
    (s.clientesDf = [] →
      render s sel ms pr =
        (.emptyInfo
          ("Aún no hay datos de clientes. Use el formulario de la barra lateral para comenzar."),
          s)) ∧
    (∀ r rs, s.clientesDf = r :: rs →
      (render s sel ms pr).1 =
        .dashboard (sliderRange r rs).1 (sliderRange r rs).2.1 (sliderRange r rs).2.2
          (filterTable (r :: rs) ⟨sel, ms, pr.1, pr.2⟩)
          (precioPromedio (filterTable (r :: rs) ⟨sel, ms, pr.1, pr.2⟩))
          (scorePromedio (filterTable (r :: rs) ⟨sel, ms, pr.1, pr.2⟩))
          (count_type (filterTable (r :: rs) ⟨sel, ms, pr.1, pr.2⟩))
          (sortByFechaDesc (filterTable (r :: rs) ⟨sel, ms, pr.1, pr.2⟩))
          (to_excel (sortByFechaDesc (filterTable (r :: rs) ⟨sel, ms, pr.1, pr.2⟩)))) := by
  rcases s with ⟨df, csv⟩
  constructor
  · rintro h
    simp only at h
    subst h
    rfl
  · rintro r rs h
    simp only at h
    subst h
    rfl

theorem empty_table_guard_witness :
    render ⟨[], none⟩ [] 0 (0, 0) =
      (.emptyInfo
        ("Aún no hay datos de clientes. Use el formulario de la barra lateral para comenzar."),
        (⟨[], none⟩ : AppState)) :=
  (empty_table_guard ⟨[], none⟩ [] 0 (0, 0)).1 rfl

end CRM
